import Mathlib

/-!
Shallow embedding of `src/qbg/properties.rs` from the `ngt-rs` repository:
the QBG construction-parameter and build-parameter builders, their enums
(`QbgObject`, `QbgDistance`, `QbgClusteringInitMode`), the validated
`extended_dimension` override, and both `into_raw` boundary conversions.
Rust `usize` values are modelled as `Nat` (the idealized arithmetic the spec
is written in); a separate `w`-bit wrapping variant models release-mode
overflow of `x + 15`.
-/

namespace NgtQbg

/-- Embeds `enum QbgObject { Uint8 = 0, Float = 1, Float16 = 2 }` (repr i32). -/
inductive QbgObject where
  | Uint8
  | Float
  | Float16
deriving DecidableEq

/-- The `repr(i32)` discriminant of a `QbgObject` variant (`as i32` in Rust). -/
def QbgObject.toCode : QbgObject → Int
  | .Uint8 => 0
  | .Float => 1
  | .Float16 => 2

/-- Embeds the derived `TryFromPrimitive` decoding for `QbgObject`:
succeeds exactly on the declared discriminants 0, 1, 2. -/
def QbgObject.try_from (c : Int) : Option QbgObject :=
  if c = 0 then some .Uint8
  else if c = 1 then some .Float
  else if c = 2 then some .Float16
  else none

/-- Embeds the closed, sealed set of element representations admitted by the
`QbgObjectType` trait: exactly `u8`, `f32` and `f16` implement it. -/
inductive ElemRepr where
  | u8
  | f32
  | f16
deriving DecidableEq

/-- Embeds the three `QbgObjectType::as_obj` impls:
`u8 ↦ Uint8`, `f32 ↦ Float`, `f16 ↦ Float16`. -/
def ElemRepr.as_obj : ElemRepr → QbgObject
  | .u8 => .Uint8
  | .f32 => .Float
  | .f16 => .Float16

/-- Embeds `enum QbgDistance { L2 = 1 }` (repr i32). -/
inductive QbgDistance where
  | L2
deriving DecidableEq

/-- The `repr(i32)` discriminant of a `QbgDistance` variant. -/
def QbgDistance.toCode : QbgDistance → Int
  | .L2 => 1

/-- Embeds the derived `TryFromPrimitive` decoding for `QbgDistance`:
succeeds exactly on the declared discriminant 1. -/
def QbgDistance.try_from (c : Int) : Option QbgDistance :=
  if c = 1 then some .L2 else none

/-- Embeds `enum QbgClusteringInitMode` with discriminants 0..5 (repr i32). -/
inductive QbgClusteringInitMode where
  | Head
  | Random
  | KmeansPlusPlus
  | RandomFixedSeed
  | KmeansPlusPlusFixedSeed
  | Best
deriving DecidableEq

/-- The `repr(i32)` discriminant of a `QbgClusteringInitMode` variant. -/
def QbgClusteringInitMode.toCode : QbgClusteringInitMode → Int
  | .Head => 0
  | .Random => 1
  | .KmeansPlusPlus => 2
  | .RandomFixedSeed => 3
  | .KmeansPlusPlusFixedSeed => 4
  | .Best => 5

/-- Embeds the derived `TryFromPrimitive` decoding for `QbgClusteringInitMode`:
succeeds exactly on the declared discriminants 0..5. -/
def QbgClusteringInitMode.try_from (c : Int) : Option QbgClusteringInitMode :=
  if c = 0 then some .Head
  else if c = 1 then some .Random
  else if c = 2 then some .KmeansPlusPlus
  else if c = 3 then some .RandomFixedSeed
  else if c = 4 then some .KmeansPlusPlusFixedSeed
  else if c = 5 then some .Best
  else none

/-- Embeds `fn next_multiple_of_16(x: usize) -> usize { ((x + 15) / 16) * 16 }`
in idealized (non-overflowing) arithmetic. -/
def next_multiple_of_16 (x : Nat) : Nat :=
  ((x + 15) / 16) * 16

/-- Embeds `struct QbgConstructParams<T>` (the `PhantomData<T>` marker carries
no data and is dropped; the element representation enters only through the
two tag fields set at creation). -/
structure QbgConstructParams where
  extended_dimension : Nat
  dimension : Nat
  number_of_subvectors : Nat
  number_of_blobs : Nat
  internal_data_type : QbgObject
  data_type : QbgObject
  distance_type : QbgDistance
deriving DecidableEq

/-- Embeds the constructor `QbgConstructParams::<T>::dimension(dimension)`;
the generic element type `T` is passed explicitly as `t : ElemRepr`. -/
def QbgConstructParams.of_dimension (t : ElemRepr) (dimension : Nat) :
    QbgConstructParams :=
  { extended_dimension := next_multiple_of_16 dimension
    dimension := dimension
    number_of_subvectors := 1
    number_of_blobs := 0
    internal_data_type := t.as_obj
    data_type := t.as_obj
    distance_type := .L2 }

/-- Embeds the fallible override `QbgConstructParams::extended_dimension`;
errors are modelled by their message string (`Error(String)` in the source). -/
def QbgConstructParams.set_extended_dimension (self : QbgConstructParams)
    (extended_dimension : Nat) : Except String QbgConstructParams :=
  if extended_dimension % 16 = 0 ∧ self.dimension ≤ extended_dimension then
    .ok { self with extended_dimension := extended_dimension }
  else
    .error ("Invalid extended_dimension: " ++ toString extended_dimension ++
      ", must be a multiple of 16 greater or equal to dimension")

/-- Embeds the override `QbgConstructParams::number_of_subvectors`. -/
def QbgConstructParams.set_number_of_subvectors (self : QbgConstructParams)
    (number_of_subvectors : Nat) : QbgConstructParams :=
  { self with number_of_subvectors := number_of_subvectors }

/-- Embeds the override `QbgConstructParams::number_of_blobs`. -/
def QbgConstructParams.set_number_of_blobs (self : QbgConstructParams)
    (number_of_blobs : Nat) : QbgConstructParams :=
  { self with number_of_blobs := number_of_blobs }

/-- Embeds the override `QbgConstructParams::internal_data_type`. -/
def QbgConstructParams.set_internal_data_type (self : QbgConstructParams)
    (internal_data_type : QbgObject) : QbgConstructParams :=
  { self with internal_data_type := internal_data_type }

/-- Embeds the override `QbgConstructParams::distance_type`. -/
def QbgConstructParams.set_distance_type (self : QbgConstructParams)
    (distance_type : QbgDistance) : QbgConstructParams :=
  { self with distance_type := distance_type }

/-- Embeds the fixed-layout FFI record `sys::QBGConstructionParameters`. -/
structure QBGConstructionParameters where
  extended_dimension : Nat
  dimension : Nat
  number_of_subvectors : Nat
  number_of_blobs : Nat
  internal_data_type : Int
  data_type : Int
  distance_type : Int
deriving DecidableEq

/-- Embeds `QbgConstructParams::into_raw`: field-by-field copy with each enum
tag converted to its i32 discriminant. -/
def QbgConstructParams.into_raw (self : QbgConstructParams) :
    QBGConstructionParameters :=
  { extended_dimension := self.extended_dimension
    dimension := self.dimension
    number_of_subvectors := self.number_of_subvectors
    number_of_blobs := self.number_of_blobs
    internal_data_type := self.internal_data_type.toCode
    data_type := self.data_type.toCode
    distance_type := self.distance_type.toCode }

/-- Embeds `struct QbgBuildParams`. -/
structure QbgBuildParams where
  hierarchical_clustering_init_mode : QbgClusteringInitMode
  number_of_first_objects : Nat
  number_of_first_clusters : Nat
  number_of_second_objects : Nat
  number_of_second_clusters : Nat
  number_of_third_clusters : Nat
  number_of_objects : Nat
  number_of_subvectors : Nat
  optimization_clustering_init_mode : QbgClusteringInitMode
  rotation_iteration : Nat
  subvector_iteration : Nat
  number_of_matrices : Nat
  rotation : Bool
  repositioning : Bool
deriving DecidableEq

/-- Embeds `impl Default for QbgBuildParams`. -/
def QbgBuildParams.default : QbgBuildParams :=
  { hierarchical_clustering_init_mode := .KmeansPlusPlus
    number_of_first_objects := 0
    number_of_first_clusters := 0
    number_of_second_objects := 0
    number_of_second_clusters := 0
    number_of_third_clusters := 0
    number_of_objects := 1000
    number_of_subvectors := 1
    optimization_clustering_init_mode := .KmeansPlusPlus
    rotation_iteration := 2000
    subvector_iteration := 400
    number_of_matrices := 3
    rotation := true
    repositioning := false }

/-- Embeds the override `QbgBuildParams::hierarchical_clustering_init_mode`. -/
def QbgBuildParams.set_hierarchical_clustering_init_mode (self : QbgBuildParams)
    (clustering_init_mode : QbgClusteringInitMode) : QbgBuildParams :=
  { self with hierarchical_clustering_init_mode := clustering_init_mode }

/-- Embeds the override `QbgBuildParams::number_of_first_objects`. -/
def QbgBuildParams.set_number_of_first_objects (self : QbgBuildParams)
    (number_of_first_objects : Nat) : QbgBuildParams :=
  { self with number_of_first_objects := number_of_first_objects }

/-- Embeds the override `QbgBuildParams::number_of_first_clusters`. -/
def QbgBuildParams.set_number_of_first_clusters (self : QbgBuildParams)
    (number_of_first_clusters : Nat) : QbgBuildParams :=
  { self with number_of_first_clusters := number_of_first_clusters }

/-- Embeds the override `QbgBuildParams::number_of_second_objects`. -/
def QbgBuildParams.set_number_of_second_objects (self : QbgBuildParams)
    (number_of_second_objects : Nat) : QbgBuildParams :=
  { self with number_of_second_objects := number_of_second_objects }

/-- Embeds the override `QbgBuildParams::number_of_second_clusters`. -/
def QbgBuildParams.set_number_of_second_clusters (self : QbgBuildParams)
    (number_of_second_clusters : Nat) : QbgBuildParams :=
  { self with number_of_second_clusters := number_of_second_clusters }

/-- Embeds the override `QbgBuildParams::number_of_third_clusters`. -/
def QbgBuildParams.set_number_of_third_clusters (self : QbgBuildParams)
    (number_of_third_clusters : Nat) : QbgBuildParams :=
  { self with number_of_third_clusters := number_of_third_clusters }

/-- Embeds the override `QbgBuildParams::number_of_objects`. -/
def QbgBuildParams.set_number_of_objects (self : QbgBuildParams)
    (number_of_objects : Nat) : QbgBuildParams :=
  { self with number_of_objects := number_of_objects }

/-- Embeds the override `QbgBuildParams::number_of_subvectors`. -/
def QbgBuildParams.set_number_of_subvectors (self : QbgBuildParams)
    (number_of_subvectors : Nat) : QbgBuildParams :=
  { self with number_of_subvectors := number_of_subvectors }

/-- Embeds the override `QbgBuildParams::optimization_clustering_init_mode`. -/
def QbgBuildParams.set_optimization_clustering_init_mode (self : QbgBuildParams)
    (clustering_init_mode : QbgClusteringInitMode) : QbgBuildParams :=
  { self with optimization_clustering_init_mode := clustering_init_mode }

/-- Embeds the override `QbgBuildParams::rotation_iteration`. -/
def QbgBuildParams.set_rotation_iteration (self : QbgBuildParams)
    (rotation_iteration : Nat) : QbgBuildParams :=
  { self with rotation_iteration := rotation_iteration }

/-- Embeds the override `QbgBuildParams::subvector_iteration`. -/
def QbgBuildParams.set_subvector_iteration (self : QbgBuildParams)
    (subvector_iteration : Nat) : QbgBuildParams :=
  { self with subvector_iteration := subvector_iteration }

/-- Embeds the override `QbgBuildParams::number_of_matrices`. -/
def QbgBuildParams.set_number_of_matrices (self : QbgBuildParams)
    (number_of_matrices : Nat) : QbgBuildParams :=
  { self with number_of_matrices := number_of_matrices }

/-- Embeds the override `QbgBuildParams::rotation`. -/
def QbgBuildParams.set_rotation (self : QbgBuildParams)
    (rotation : Bool) : QbgBuildParams :=
  { self with rotation := rotation }

/-- Embeds the override `QbgBuildParams::repositioning`. -/
def QbgBuildParams.set_repositioning (self : QbgBuildParams)
    (repositioning : Bool) : QbgBuildParams :=
  { self with repositioning := repositioning }

/-- Embeds the fixed-layout FFI record `sys::QBGBuildParameters`. -/
structure QBGBuildParameters where
  hierarchical_clustering_init_mode : Int
  number_of_first_objects : Nat
  number_of_first_clusters : Nat
  number_of_second_objects : Nat
  number_of_second_clusters : Nat
  number_of_third_clusters : Nat
  number_of_objects : Nat
  number_of_subvectors : Nat
  optimization_clustering_init_mode : Int
  rotation_iteration : Nat
  subvector_iteration : Nat
  number_of_matrices : Nat
  rotation : Bool
  repositioning : Bool
deriving DecidableEq

/-- Embeds `QbgBuildParams::into_raw`: field-by-field copy with each enum tag
converted to its i32 discriminant. -/
def QbgBuildParams.into_raw (self : QbgBuildParams) : QBGBuildParameters :=
  { hierarchical_clustering_init_mode :=
      self.hierarchical_clustering_init_mode.toCode
    number_of_first_objects := self.number_of_first_objects
    number_of_first_clusters := self.number_of_first_clusters
    number_of_second_objects := self.number_of_second_objects
    number_of_second_clusters := self.number_of_second_clusters
    number_of_third_clusters := self.number_of_third_clusters
    number_of_objects := self.number_of_objects
    number_of_subvectors := self.number_of_subvectors
    optimization_clustering_init_mode :=
      self.optimization_clustering_init_mode.toCode
    rotation_iteration := self.rotation_iteration
    subvector_iteration := self.subvector_iteration
    number_of_matrices := self.number_of_matrices
    rotation := self.rotation
    repositioning := self.repositioning }

/-- The construction-parameter invariant the source enforces on overrides:
`extended_dimension % 16 == 0 && extended_dimension >= dimension`. -/
def QbgConstructParams.inv (p : QbgConstructParams) : Prop :=
  p.extended_dimension % 16 = 0 ∧ p.dimension ≤ p.extended_dimension

/-- The construction builders reachable from creation through any sequence of
successful overrides (a failed `set_extended_dimension` yields no builder,
so it contributes no step). -/
inductive QbgConstructParams.Reachable : QbgConstructParams → Prop where
  | create (t : ElemRepr) (d : Nat) :
      Reachable (QbgConstructParams.of_dimension t d)
  | ext_dim (p p' : QbgConstructParams) (v : Nat) : Reachable p →
      p.set_extended_dimension v = .ok p' → Reachable p'
  | subvectors (p : QbgConstructParams) (v : Nat) : Reachable p →
      Reachable (p.set_number_of_subvectors v)
  | blobs (p : QbgConstructParams) (v : Nat) : Reachable p →
      Reachable (p.set_number_of_blobs v)
  | internal (p : QbgConstructParams) (o : QbgObject) : Reachable p →
      Reachable (p.set_internal_data_type o)
  | dist (p : QbgConstructParams) (dt : QbgDistance) : Reachable p →
      Reachable (p.set_distance_type dt)

/-- `w`-bit wrapping-arithmetic model of `next_multiple_of_16` (Rust release
mode: `x + 15` wraps modulo `2^w`; the subsequent `/ 16` and `* 16` cannot
overflow once the sum is reduced). -/
def next_multiple_of_16_wrap (w x : Nat) : Nat :=
  ((x + 15) % 2 ^ w / 16) * 16

/-- `w`-bit wrapping-arithmetic model of `QbgConstructParams::<T>::dimension`. -/
def QbgConstructParams.of_dimension_wrap (w : Nat) (t : ElemRepr)
    (dimension : Nat) : QbgConstructParams :=
  { extended_dimension := next_multiple_of_16_wrap w dimension
    dimension := dimension
    number_of_subvectors := 1
    number_of_blobs := 0
    internal_data_type := t.as_obj
    data_type := t.as_obj
    distance_type := .L2 }

/-- C1: for every positive dimension `d`, creation sets `extended_dimension`
to `((d + 15) / 16) * 16` (integer division), the smallest multiple of 16
greater than or equal to `d`; in particular dimension 3 gives 16, 16 gives
16, 513 gives 528 and 512 gives 512. -/
theorem c1_creation_extended_dimension (t : ElemRepr) (d : Nat) (h : 0 < d) :
    (QbgConstructParams.of_dimension t d).extended_dimension =
      ((d + 15) / 16) * 16 ∧
    (QbgConstructParams.of_dimension t d).extended_dimension % 16 = 0 ∧
    d ≤ (QbgConstructParams.of_dimension t d).extended_dimension ∧
    (∀ m : Nat, m % 16 = 0 → d ≤ m →
      (QbgConstructParams.of_dimension t d).extended_dimension ≤ m) ∧
    (QbgConstructParams.of_dimension t 3).extended_dimension = 16 ∧
    (QbgConstructParams.of_dimension t 16).extended_dimension = 16 ∧
    (QbgConstructParams.of_dimension t 513).extended_dimension = 528 ∧
    (QbgConstructParams.of_dimension t 512).extended_dimension = 512 := by
  have e : (QbgConstructParams.of_dimension t d).extended_dimension =
      ((d + 15) / 16) * 16 := rfl
  refine ⟨e, ?_, ?_, ?_, rfl, rfl, rfl, rfl⟩
  · rw [e]
    omega
  · rw [e]
    omega
  · intro m hm hd
    rw [e]
    omega

/-- Witness for C1 at dimension 3. -/
theorem c1_creation_extended_dimension_witness :
    0 < 3 ∧ (QbgConstructParams.of_dimension ElemRepr.f32 3).extended_dimension % 16 = 0 :=
  ⟨by norm_num, (c1_creation_extended_dimension ElemRepr.f32 3 (by norm_num)).2.1⟩

/-- C2: the `extended_dimension` override succeeds, returning the updated
builder, iff `v % 16 == 0 && v >= dimension`; otherwise it returns the
validation error naming `v` and restating the constraint. -/
theorem c2_extended_dimension_override (p : QbgConstructParams) (v : Nat) :
    ((∃ p', p.set_extended_dimension v = .ok p') ↔
      (v % 16 = 0 ∧ p.dimension ≤ v)) ∧
    (v % 16 = 0 → p.dimension ≤ v →
      p.set_extended_dimension v = .ok { p with extended_dimension := v }) ∧
    (¬(v % 16 = 0 ∧ p.dimension ≤ v) →
      p.set_extended_dimension v = .error ("Invalid extended_dimension: " ++
        toString v ++ ", must be a multiple of 16 greater or equal to dimension")) := by
  unfold QbgConstructParams.set_extended_dimension
  split_ifs with h
  · exact ⟨⟨fun _ => h, fun _ => ⟨_, rfl⟩⟩, fun _ _ => rfl, fun hc => absurd h hc⟩
  · refine ⟨⟨?_, fun hc => absurd hc h⟩, fun h1 h2 => absurd ⟨h1, h2⟩ h, fun _ => rfl⟩
    rintro ⟨p', hp'⟩
    exact hp'.elim

/-- Witness for C2: dimension 16, candidate 32 is accepted. -/
theorem c2_extended_dimension_override_witness :
    ∃ p', (QbgConstructParams.of_dimension ElemRepr.f32 16).set_extended_dimension 32 =
      Except.ok p' :=
  (c2_extended_dimension_override
    (QbgConstructParams.of_dimension ElemRepr.f32 16) 32).1.mpr (by decide)

/-- C3: `extended_dimension % 16 == 0 && extended_dimension >= dimension`
holds for every construction builder reachable from creation through any
sequence of successful overrides, hence for every builder that reaches
finalization. -/
theorem c3_invariant_reachable (p : QbgConstructParams) (h : p.Reachable) :
    p.inv := by
  induction h with
  | create t d =>
      simp only [QbgConstructParams.inv, QbgConstructParams.of_dimension,
        next_multiple_of_16]
      omega
  | ext_dim p p' v _ hok ih =>
      unfold QbgConstructParams.set_extended_dimension at hok
      split_ifs at hok with hc
      cases hok
      exact ⟨hc.1, hc.2⟩
  | subvectors p v _ ih => exact ih
  | blobs p v _ ih => exact ih
  | internal p o _ ih => exact ih
  | dist p dt _ ih => exact ih

/-- Witness for C3 at the freshly created builder with dimension 5. -/
theorem c3_invariant_reachable_witness :
    (QbgConstructParams.of_dimension ElemRepr.u8 5).inv :=
  c3_invariant_reachable _ (QbgConstructParams.Reachable.create ElemRepr.u8 5)

/-- C5: both `into_raw` conversions are total (never validate, never fail)
and copy every field unchanged, with enum tags converted to their i32
discriminants and no other transformation. -/
theorem c5_into_raw_identity (p : QbgConstructParams) (q : QbgBuildParams) :
    p.into_raw.extended_dimension = p.extended_dimension ∧
    p.into_raw.dimension = p.dimension ∧
    p.into_raw.number_of_subvectors = p.number_of_subvectors ∧
    p.into_raw.number_of_blobs = p.number_of_blobs ∧
    p.into_raw.internal_data_type = p.internal_data_type.toCode ∧
    p.into_raw.data_type = p.data_type.toCode ∧
    p.into_raw.distance_type = p.distance_type.toCode ∧
    q.into_raw.hierarchical_clustering_init_mode =
      q.hierarchical_clustering_init_mode.toCode ∧
    q.into_raw.number_of_first_objects = q.number_of_first_objects ∧
    q.into_raw.number_of_first_clusters = q.number_of_first_clusters ∧
    q.into_raw.number_of_second_objects = q.number_of_second_objects ∧
    q.into_raw.number_of_second_clusters = q.number_of_second_clusters ∧
    q.into_raw.number_of_third_clusters = q.number_of_third_clusters ∧
    q.into_raw.number_of_objects = q.number_of_objects ∧
    q.into_raw.number_of_subvectors = q.number_of_subvectors ∧
    q.into_raw.optimization_clustering_init_mode =
      q.optimization_clustering_init_mode.toCode ∧
    q.into_raw.rotation_iteration = q.rotation_iteration ∧
    q.into_raw.subvector_iteration = q.subvector_iteration ∧
    q.into_raw.number_of_matrices = q.number_of_matrices ∧
    q.into_raw.rotation = q.rotation ∧
    q.into_raw.repositioning = q.repositioning :=
  ⟨rfl, rfl, rfl, rfl, rfl, rfl, rfl, rfl, rfl, rfl, rfl,
   rfl, rfl, rfl, rfl, rfl, rfl, rfl, rfl, rfl, rfl⟩

/-- C6: the element-representation-to-tag mapping is a bijection on its
domain: `u8 ↦ 0`, `f32 ↦ 1`, `f16 ↦ 2`, and no two representations share
a tag. -/
theorem c6_elem_repr_bijection :
    ElemRepr.u8.as_obj.toCode = 0 ∧
    ElemRepr.f32.as_obj.toCode = 1 ∧
    ElemRepr.f16.as_obj.toCode = 2 ∧
    ElemRepr.u8.as_obj ≠ ElemRepr.f32.as_obj ∧
    ElemRepr.u8.as_obj ≠ ElemRepr.f16.as_obj ∧
    ElemRepr.f32.as_obj ≠ ElemRepr.f16.as_obj := by
  decide

/-- C7: decoding an integer code succeeds exactly on the declared
discriminants (0..2 for `QbgObject`, 1 for `QbgDistance`, 0..5 for
`QbgClusteringInitMode`), re-encoding the decoded value round-trips to the
same code, and every other code decodes to `none`. -/
theorem c7_try_from_round_trip (c : Int) :
    ((QbgObject.try_from c).map QbgObject.toCode =
      if c = 0 ∨ c = 1 ∨ c = 2 then some c else none) ∧
    ((QbgDistance.try_from c).map QbgDistance.toCode =
      if c = 1 then some c else none) ∧
    ((QbgClusteringInitMode.try_from c).map QbgClusteringInitMode.toCode =
      if c = 0 ∨ c = 1 ∨ c = 2 ∨ c = 3 ∨ c = 4 ∨ c = 5 then some c else none) := by
  refine ⟨?_, ?_, ?_⟩
  · unfold QbgObject.try_from
    split_ifs <;> simp_all [QbgObject.toCode]
  · unfold QbgDistance.try_from
    split_ifs <;> simp_all [QbgDistance.toCode]
  · unfold QbgClusteringInitMode.try_from
    split_ifs <;> simp_all [QbgClusteringInitMode.toCode]

/-- C8: the default build-parameter instance has exactly the documented
field values. -/
theorem c8_build_defaults :
    QbgBuildParams.default.hierarchical_clustering_init_mode =
      QbgClusteringInitMode.KmeansPlusPlus ∧
    QbgBuildParams.default.number_of_first_objects = 0 ∧
    QbgBuildParams.default.number_of_first_clusters = 0 ∧
    QbgBuildParams.default.number_of_second_objects = 0 ∧
    QbgBuildParams.default.number_of_second_clusters = 0 ∧
    QbgBuildParams.default.number_of_third_clusters = 0 ∧
    QbgBuildParams.default.number_of_objects = 1000 ∧
    QbgBuildParams.default.number_of_subvectors = 1 ∧
    QbgBuildParams.default.optimization_clustering_init_mode =
      QbgClusteringInitMode.KmeansPlusPlus ∧
    QbgBuildParams.default.rotation_iteration = 2000 ∧
    QbgBuildParams.default.subvector_iteration = 400 ∧
    QbgBuildParams.default.number_of_matrices = 3 ∧
    QbgBuildParams.default.rotation = true ∧
    QbgBuildParams.default.repositioning = false := by
  decide

/-- C9: every override of either builder equals the record update of its
targeted field alone (so every other field, in particular `dimension` and
`data_type` of the construction builder, is unchanged); a successful
`extended_dimension` override likewise updates only that field. -/
theorem c9_override_frame (p : QbgConstructParams) (q : QbgBuildParams)
    (n : Nat) (o : QbgObject) (dt : QbgDistance) (m : QbgClusteringInitMode)
    (b : Bool) :
    p.set_number_of_subvectors n = { p with number_of_subvectors := n } ∧
    p.set_number_of_blobs n = { p with number_of_blobs := n } ∧
    p.set_internal_data_type o = { p with internal_data_type := o } ∧
    p.set_distance_type dt = { p with distance_type := dt } ∧
    (p.set_number_of_subvectors n).dimension = p.dimension ∧
    (p.set_number_of_subvectors n).data_type = p.data_type ∧
    (p.set_number_of_blobs n).dimension = p.dimension ∧
    (p.set_number_of_blobs n).data_type = p.data_type ∧
    (p.set_internal_data_type o).dimension = p.dimension ∧
    (p.set_internal_data_type o).data_type = p.data_type ∧
    (p.set_distance_type dt).dimension = p.dimension ∧
    (p.set_distance_type dt).data_type = p.data_type ∧
    (∀ p', p.set_extended_dimension n = .ok p' →
      p' = { p with extended_dimension := n }) ∧
    q.set_hierarchical_clustering_init_mode m =
      { q with hierarchical_clustering_init_mode := m } ∧
    q.set_number_of_first_objects n = { q with number_of_first_objects := n } ∧
    q.set_number_of_first_clusters n = { q with number_of_first_clusters := n } ∧
    q.set_number_of_second_objects n = { q with number_of_second_objects := n } ∧
    q.set_number_of_second_clusters n = { q with number_of_second_clusters := n } ∧
    q.set_number_of_third_clusters n = { q with number_of_third_clusters := n } ∧
    q.set_number_of_objects n = { q with number_of_objects := n } ∧
    q.set_number_of_subvectors n = { q with number_of_subvectors := n } ∧
    q.set_optimization_clustering_init_mode m =
      { q with optimization_clustering_init_mode := m } ∧
    q.set_rotation_iteration n = { q with rotation_iteration := n } ∧
    q.set_subvector_iteration n = { q with subvector_iteration := n } ∧
    q.set_number_of_matrices n = { q with number_of_matrices := n } ∧
    q.set_rotation b = { q with rotation := b } ∧
    q.set_repositioning b = { q with repositioning := b } := by
  refine ⟨rfl, rfl, rfl, rfl, rfl, rfl, rfl, rfl, rfl, rfl, rfl, rfl, ?_,
    rfl, rfl, rfl, rfl, rfl, rfl, rfl, rfl, rfl, rfl, rfl, rfl, rfl, rfl⟩
  intro p' h
  unfold QbgConstructParams.set_extended_dimension at h
  split_ifs at h
  cases h
  rfl

/-- Witness for C9: a blobs override on a concrete builder. -/
theorem c9_override_frame_witness :
    (QbgConstructParams.of_dimension ElemRepr.u8 4).set_number_of_blobs 7 =
      { QbgConstructParams.of_dimension ElemRepr.u8 4 with number_of_blobs := 7 } :=
  (c9_override_frame (QbgConstructParams.of_dimension ElemRepr.u8 4)
    QbgBuildParams.default 7 QbgObject.Float QbgDistance.L2
    QbgClusteringInitMode.Head true).2.1

/-- C10: in `w`-bit wrapping arithmetic the creation formula agrees with the
true next multiple of 16 when `dimension + 15` does not overflow, and for
every dimension above `2^w - 16` (within range) creation yields
`extended_dimension` strictly smaller than `dimension`, violating
`extended_dimension >= dimension` at the freshly created builder. -/
theorem c10_wrapping_overflow (t : ElemRepr) (w d : Nat) (hw : 4 ≤ w) :
    (∀ x : Nat, x + 15 < 2 ^ w →
      next_multiple_of_16_wrap w x = next_multiple_of_16 x) ∧
    (2 ^ w - 16 < d → d < 2 ^ w →
      (QbgConstructParams.of_dimension_wrap w t d).extended_dimension <
        (QbgConstructParams.of_dimension_wrap w t d).dimension ∧
      next_multiple_of_16_wrap w d ≠ next_multiple_of_16 d) := by
  have hk : 16 ≤ 2 ^ w := by
    calc (16 : Nat) = 2 ^ 4 := by norm_num
    _ ≤ 2 ^ w := Nat.pow_le_pow_right (by norm_num) hw
  constructor
  · intro x hx
    unfold next_multiple_of_16_wrap next_multiple_of_16
    rw [Nat.mod_eq_of_lt hx]
  · intro h1 h2
    have hmod : (d + 15) % 2 ^ w = d + 15 - 2 ^ w := by
      rw [Nat.mod_eq_sub_mod (by omega), Nat.mod_eq_of_lt (by omega)]
    have hlt : next_multiple_of_16_wrap w d < d := by
      unfold next_multiple_of_16_wrap
      rw [hmod]
      omega
    have hge : d ≤ next_multiple_of_16 d := by
      unfold next_multiple_of_16
      omega
    exact ⟨hlt, by omega⟩

/-- Witness for C10: 16-bit wrapping at dimension 65535. -/
theorem c10_wrapping_overflow_witness :
    (QbgConstructParams.of_dimension_wrap 16 ElemRepr.u8 65535).extended_dimension <
      (QbgConstructParams.of_dimension_wrap 16 ElemRepr.u8 65535).dimension :=
  ((c10_wrapping_overflow ElemRepr.u8 16 65535 (by norm_num)).2
    (by norm_num) (by norm_num)).1

end NgtQbg
